import Mathlib

/-!
Verification of the Dexcom data-viewer repository (two Streamlit scripts,
`src/dexcom_streamlit_app.py` and `src/working_dexcom_app.py`) against its
natural-language specification.

The embedding is shallow: each Python function that the claims touch is
translated into a Lean definition over explicit state.  The network is an
explicit parameter (`HttpResult`): a handler receives the outcome the HTTP
library would deliver for the single POST/GET it may make, and the embedding
records whether that call was actually issued (`networkCalled`) together with
the authorization code it would carry (`payloadCode`).  Time is an explicit
integer parameter `now` (seconds), standing for `datetime.now()` at the point
the handler computes an expiry.
-/

/-- JSON body of a token-endpoint response, as the two scripts read it with
`token_data.get('access_token')`, `token_data.get('refresh_token')` and
`token_data.get('expires_in', 7200)`.  Per the spec's §6 these are the
response's fields; an absent field is `none`. -/
structure TokenResponse where
  access_token : Option String
  refresh_token : Option String
  expires_in : Option Nat
deriving DecidableEq, Repr

/-- Python truthiness of the decoded JSON dict (`if token_data:`): a dict is
truthy iff it is non-empty, i.e. at least one of its fields is present. -/
def TokenResponse.truthy (t : TokenResponse) : Bool :=
  t.access_token.isSome || t.refresh_token.isSome || t.expires_in.isSome

/-- Outcome the HTTP library delivers for one request: a 2xx response with a
JSON body, a non-2xx status (which `raise_for_status` turns into an
`HTTPError`), a timeout, or a connection-level failure. -/
inductive HttpResult where
  | ok (body : TokenResponse)
  | httpError (status : Nat)
  | timeout
  | connError
deriving DecidableEq, Repr

/-- Result of one call to a token-exchange or refresh function: whether a POST
to the token endpoint was issued, the `code` field the POST carried (`none`
when no call was made or the call carries no code), whether the CSRF
state-mismatch rejection fired, and the Python return value (`none` models
`return None`). -/
structure CallResult where
  networkCalled : Bool
  payloadCode : Option String
  securityError : Bool
  result : Option TokenResponse
deriving DecidableEq, Repr

namespace DexcomStreamlitApp

/-- Embeds `exchange_code_for_token(auth_code, state)` from
`src/dexcom_streamlit_app.py` lines 55-88 (the first of the file's two
definitions of that name).  `oauth_state` is `st.session_state.oauth_state`
(`none` when the key is absent).  The guard is line 58:
`if 'oauth_state' not in st.session_state or state != st.session_state.oauth_state`,
which returns `None` before any network activity; otherwise the function POSTs
the grant and returns the decoded JSON on 2xx, `None` on every failure. -/
def exchange_code_for_token (oauth_state : Option String)
    (auth_code state : String) (net : HttpResult) : CallResult :=
  match oauth_state with
  | none =>
      { networkCalled := false, payloadCode := none,
        securityError := true, result := none }
  | some s =>
      if state ≠ s then
        { networkCalled := false, payloadCode := none,
          securityError := true, result := none }
      else
        match net with
        | .ok body =>
            { networkCalled := true, payloadCode := some auth_code,
              securityError := false, result := some body }
        | _ =>
            { networkCalled := true, payloadCode := some auth_code,
              securityError := false, result := none }

/-- Embeds the second, shadowing `exchange_code_for_token(auth_code)` from
`src/dexcom_streamlit_app.py` lines 414-432: no `state` parameter, no CSRF
check; it POSTs the grant unconditionally and returns the decoded JSON on
2xx, `None` on every failure. -/
def exchange_code_for_token_v2 (auth_code : String) (net : HttpResult) :
    CallResult :=
  match net with
  | .ok body =>
      { networkCalled := true, payloadCode := some auth_code,
        securityError := false, result := some body }
  | _ =>
      { networkCalled := true, payloadCode := some auth_code,
        securityError := false, result := none }

/-- Embeds `refresh_access_token(refresh_token)` from
`src/dexcom_streamlit_app.py` lines 90-107: POSTs the refresh grant and
returns the decoded JSON on 2xx; every failure (`HTTPError` from
`raise_for_status` included, since it subclasses `RequestException`) is caught
and `None` returned. -/
def refresh_access_token (refresh_token : String) (net : HttpResult) :
    CallResult :=
  match net with
  | .ok body =>
      { networkCalled := true, payloadCode := none,
        securityError := false, result := some body }
  | _ =>
      { networkCalled := true, payloadCode := none,
        securityError := false, result := none }

/-- Session state of the first `main` of `src/dexcom_streamlit_app.py`:
`st.session_state.access_token`, `.refresh_token`, `.token_expires_at`
(all initialised to `None`) and `.oauth_state` (absent until
`get_auth_url` stores one). -/
structure SessionState where
  access_token : Option String
  refresh_token : Option String
  token_expires_at : Option Int
  oauth_state : Option String
deriving DecidableEq, Repr

/-- Query parameters of the current request (`st.query_params`): the `code`
and `state` entries, `none` when absent. -/
structure QueryParams where
  code : Option String
  state : Option String
deriving DecidableEq, Repr

/-- Result of running the callback-handling block once: the session state and
query parameters afterwards, whether a token-endpoint POST happened during the
block, and whether the success banner (`st.success`, line 249) was shown. -/
structure StepResult where
  session : SessionState
  query : QueryParams
  exchanged : Bool
  success : Bool
deriving DecidableEq, Repr

/-- Embeds the callback-handling block of the first `main`,
`src/dexcom_streamlit_app.py` lines 236-253: if `code` and `state` are in the
query parameters and `access_token is None`, call `exchange_code_for_token`;
when it returns a truthy dict, store `access_token`/`refresh_token` via
`.get`, set `token_expires_at = now + token_data.get('expires_in', 7200)`,
show the success banner and clear the query parameters. -/
def handle_callback (st : SessionState) (q : QueryParams) (now : Int)
    (net : HttpResult) : StepResult :=
  match q.code, q.state with
  | some code, some state =>
      if st.access_token = none then
        let call := exchange_code_for_token st.oauth_state code state net
        match call.result with
        | some td =>
            if td.truthy then
              { session :=
                  { st with
                    access_token := td.access_token,
                    refresh_token := td.refresh_token,
                    token_expires_at :=
                      some (now + (td.expires_in.getD 7200 : Nat)) },
                query := { code := none, state := none },
                exchanged := call.networkCalled, success := true }
            else
              { session := st, query := q,
                exchanged := call.networkCalled, success := false }
        | none =>
            { session := st, query := q,
              exchanged := call.networkCalled, success := false }
      else
        { session := st, query := q, exchanged := false, success := false }
  | _, _ =>
      { session := st, query := q, exchanged := false, success := false }

/-- Embeds the refresh-button block of the first `main`,
`src/dexcom_streamlit_app.py` lines 293-302: if `st.session_state.refresh_token`
is truthy, call `refresh_access_token`; when it returns a truthy dict,
overwrite the token fields and recompute the expiry; otherwise the session
state is left untouched (there is no else branch). -/
def handle_refresh_click (st : SessionState) (now : Int) (net : HttpResult) :
    SessionState :=
  match st.refresh_token with
  | none => st
  | some rt =>
      if rt = "" then st
      else
        match (refresh_access_token rt net).result with
        | some td =>
            if td.truthy then
              { st with
                access_token := td.access_token,
                refresh_token := td.refresh_token,
                token_expires_at :=
                  some (now + (td.expires_in.getD 7200 : Nat)) }
            else st
        | none => st

/-- Which of the file's two `def exchange_code_for_token` statements a name
lookup can refer to. -/
inductive ExchangeVersion where
  | v1
  | v2
deriving DecidableEq, Repr

/-- Top-level `def` statements binding the name `exchange_code_for_token` in
`src/dexcom_streamlit_app.py`, in execution order: line 55 (with state
verification) then line 414 (without). -/
def exchangeDefs : List (String × ExchangeVersion) :=
  [("exchange_code_for_token", ExchangeVersion.v1),
   ("exchange_code_for_token", ExchangeVersion.v2)]

/-- Python module-load semantics: each `def` statement rebinds the name, so
the binding in effect after the module finishes loading is the last `def`
executed for that name. -/
def finalBinding (defs : List (String × ExchangeVersion)) (n : String) :
    Option ExchangeVersion :=
  (defs.filter (fun p => p.1 = n)).getLast?.map (fun p => p.2)

end DexcomStreamlitApp

namespace WorkingDexcomApp

/-- Embeds `exchange_code_for_token(auth_code)` from
`src/working_dexcom_app.py` lines 36-54: no state parameter and no CSRF
check; POSTs the grant and returns the decoded JSON on 2xx, `None` on every
failure (the bare `except Exception` catches them all). -/
def exchange_code_for_token (auth_code : String) (net : HttpResult) :
    CallResult :=
  match net with
  | .ok body =>
      { networkCalled := true, payloadCode := some auth_code,
        securityError := false, result := some body }
  | _ =>
      { networkCalled := true, payloadCode := some auth_code,
        securityError := false, result := none }

/-- Session state of `src/working_dexcom_app.py`'s `main`:
`st.session_state.access_token`, `.refresh_token` and the
`.processing_callback` guard flag, initialised to `None`/`None`/`False`. -/
structure WState where
  access_token : Option String
  refresh_token : Option String
  processing_callback : Bool
deriving DecidableEq, Repr

/-- Result of running the callback-handling block of
`src/working_dexcom_app.py` once: state and `code` query parameter
afterwards, whether a token-endpoint POST happened, and whether the success
banner was shown. -/
structure WStepResult where
  session : WState
  queryCode : Option String
  exchanged : Bool
  success : Bool
deriving DecidableEq, Repr

/-- Embeds the callback-handling block of `src/working_dexcom_app.py` lines
161-183: if `code` is in the query parameters, `processing_callback` is
false and `access_token is None`, set the flag, clear the query parameters
immediately, exchange the code, store the token fields on a truthy response
dict (error banner otherwise), reset the flag and rerun. -/
def handle_callback (st : WState) (qcode : Option String)
    (net : HttpResult) : WStepResult :=
  match qcode with
  | some code =>
      if st.processing_callback = false ∧ st.access_token = none then
        let call := exchange_code_for_token code net
        match call.result with
        | some td =>
            if td.truthy then
              { session :=
                  { access_token := td.access_token,
                    refresh_token := td.refresh_token,
                    processing_callback := false },
                queryCode := none,
                exchanged := call.networkCalled, success := true }
            else
              { session := { st with processing_callback := false },
                queryCode := none,
                exchanged := call.networkCalled, success := false }
        | none =>
            { session := { st with processing_callback := false },
              queryCode := none,
              exchanged := call.networkCalled, success := false }
      else
        { session := st, queryCode := qcode,
          exchanged := false, success := false }
  | none =>
      { session := st, queryCode := qcode,
        exchanged := false, success := false }

end WorkingDexcomApp

/-! The summarizer of `plot_glucose_data` (`src/dexcom_streamlit_app.py`
lines 152-159 and 190-194; the same code appears in
`src/working_dexcom_app.py` lines 92-99 and 133-134).  `values` is the
`df['value']` column, a sequence of integer mg/dL readings.  Percentages are
modelled in `ℚ`: the Python expression `in_range_count / len(df) * 100` is
exact rational arithmetic on these magnitudes before the one-decimal display
formatting. -/

/-- Embeds `((df['value'] >= 70) & (df['value'] <= 180)).sum()`. -/
def in_range_count (values : List Int) : Nat :=
  (values.filter (fun v => 70 ≤ v ∧ v ≤ 180)).length

/-- Embeds `time_in_range = (in_range_count / len(df) * 100) if len(df) > 0 else 0`. -/
def time_in_range (values : List Int) : ℚ :=
  if values.length > 0 then
    (in_range_count values : ℚ) / (values.length : ℚ) * 100
  else 0

/-- Embeds the marker-colour loop of `plot_glucose_data`
(`src/dexcom_streamlit_app.py` lines 152-159):
`'red'` when `value < 70`, `'orange'` when `value > 180`, `'green'`
otherwise. -/
def color (value : Int) : String :=
  if value < 70 then "red"
  else if value > 180 then "orange"
  else "green"

/-- One-decimal display rounding, as the `:.1f` format applies to the
percentage before it is shown. -/
def round1 (q : ℚ) : ℚ :=
  (round (q * 10) : ℤ) / 10

/-- Glucose reading as charted: `displayTime` is the timestamp after
`pd.to_datetime`, modelled as an integer time ordinal (datetimes are totally
ordered); `value` is the integer mg/dL reading. -/
structure Reading where
  displayTime : Int
  value : Int
deriving DecidableEq, Repr

/-- Timestamp comparison used as the sort key, `Bool`-valued as
`List.mergeSort` expects. -/
def tsLE (a b : Reading) : Bool :=
  a.displayTime ≤ b.displayTime

/-- Modelled from the spec: `plot_glucose_data` delegates the sort to the
out-of-scope tabular library (`df = df.sort_values('displayTime')`,
`src/dexcom_streamlit_app.py` line 146 and `src/working_dexcom_app.py`
line 86); the sorting algorithm itself is not code of this repository.
Following §4.3 of the spec, `toChartSeries` sorts the readings ascending by
timestamp with a stable sort, modelled here by `List.mergeSort` on the
timestamp key. -/
def toChartSeries (readings : List Reading) : List Reading :=
  readings.mergeSort tsLE

/-! CSV export of `main` (`src/dexcom_streamlit_app.py` lines 336-349,
`src/working_dexcom_app.py` lines 235-248): `csv = df.to_csv(index=False)`
over the two-column frame of readings, offered as a download. -/

/-- One exported reading row: the `displayTime` column as rendered into the
CSV (a timestamp string) and the integer `value` column. -/
structure CsvReading where
  displayTime : String
  value : Int
deriving DecidableEq, Repr

/-- Embeds the character stream of `df.to_csv(index=False)` over the
two-column reading frame: a `displayTime,value` header line, then one
`timestamp,value` row per reading in order, every line terminated by a
newline, integer values rendered in decimal.  Fields that would trigger CSV
quoting (a comma, quote, CR or LF inside the timestamp) are outside this
model; the round-trip theorem assumes their absence. -/
def to_csv (rows : List CsvReading) : List Char :=
  "displayTime,value".data ++ '\n' ::
    rows.flatMap
      (fun r => r.displayTime.data ++ ',' :: (toString r.value).data ++ ['\n'])

/-- Splits a character stream at every occurrence of `sep` (the separators
are consumed; `n` separators yield `n + 1` segments). -/
def splitOnChar (sep : Char) : List Char → List (List Char)
  | [] => [[]]
  | c :: cs =>
      let rest := splitOnChar sep cs
      if c = sep then [] :: rest
      else
        match rest with
        | [] => [[c]]
        | r :: rs => (c :: r) :: rs

/-- Value of a decimal digit character. -/
def digitVal (c : Char) : Nat :=
  c.toNat - '0'.toNat

/-- Parses a non-empty all-digit character sequence as a decimal natural. -/
def parseNat (cs : List Char) : Option Nat :=
  if cs ≠ [] ∧ cs.all (fun c => c.isDigit) then
    some (cs.foldl (fun n c => n * 10 + digitVal c) 0)
  else none

/-- Parses an optional leading minus sign followed by decimal digits. -/
def parseInt (cs : List Char) : Option Int :=
  match cs with
  | [] => none
  | c :: rest =>
      if c = '-' then (parseNat rest).map (fun n => -(n : Int))
      else (parseNat (c :: rest)).map (fun n => (n : Int))

/-- Parses one CSV data row into a `(timestamp, value)` pair: the row must
consist of a timestamp field, one comma, and a decimal integer field. -/
def parseRow (line : List Char) : Option (String × Int) :=
  match splitOnChar ',' line with
  | [ts, v] => (parseInt v).map (fun n => (String.mk ts, n))
  | _ => none

/-- Modelled from the spec: the repository only exports the CSV (a download
button); no CSV reader exists in the source.  The round-trip property of §8
re-parses the export, modelled here in the standard way: split the stream
into lines at newlines, drop the header line, and parse each remaining
well-formed `timestamp,value` row (the empty segment after the final newline
parses to nothing and is skipped). -/
def parse_csv (cs : List Char) : List (String × Int) :=
  ((splitOnChar '\n' cs).drop 1).filterMap parseRow

/-! Claim theorems. -/

/-- C1: for every callback, if the supplied state parameter does not equal
the most recently issued state value (or no state was ever issued),
`exchange_code_for_token` (the definition with state verification,
`src/dexcom_streamlit_app.py` lines 55-88) rejects the callback on its
security-error path and makes no network call to the token endpoint,
deterministically, for any input code value and any network behaviour. -/
theorem exchange_rejects_state_mismatch
    (oauth_state : Option String) (auth_code state : String) (net : HttpResult)
    (h : ∀ s, oauth_state = some s → state ≠ s) :
    DexcomStreamlitApp.exchange_code_for_token oauth_state auth_code state net =
      { networkCalled := false, payloadCode := none,
        securityError := true, result := none } := by
  cases oauth_state with
  | none => rfl
  | some s => simp [DexcomStreamlitApp.exchange_code_for_token, h s rfl]

theorem exchange_rejects_state_mismatch_witness :
    DexcomStreamlitApp.exchange_code_for_token (some "issuedState")
        "anyCode" "forgedState" HttpResult.timeout =
      { networkCalled := false, payloadCode := none,
        securityError := true, result := none } :=
  exchange_rejects_state_mismatch (some "issuedState") "anyCode" "forgedState"
    HttpResult.timeout
    (fun s hs => by injection hs with h; subst h; decide)

/-- C2: delivering the same valid callback (same code and state) twice
produces at most one token exchange, in both scripts: the first delivery
exchanges and stores the access token, and the replayed identical callback
performs no further exchange and leaves the session unchanged, because the
handlers only run while `access_token is None`. -/
theorem callback_replay_single_exchange
    (st : DexcomStreamlitApp.SessionState) (code s tok : String)
    (td : TokenResponse) (now now2 : Int) (net2 : HttpResult)
    (wst : WorkingDexcomApp.WState) (wtd : TokenResponse)
    (wtok wcode : String) (wnet2 : HttpResult)
    (hst : st.access_token = none) (hos : st.oauth_state = some s)
    (ht : td.access_token = some tok)
    (hwst : wst.access_token = none) (hwp : wst.processing_callback = false)
    (hwt : wtd.access_token = some wtok) :
    ((DexcomStreamlitApp.handle_callback st ⟨some code, some s⟩ now
        (.ok td)).exchanged = true ∧
      (DexcomStreamlitApp.handle_callback
        (DexcomStreamlitApp.handle_callback st ⟨some code, some s⟩ now
          (.ok td)).session
        ⟨some code, some s⟩ now2 net2).exchanged = false ∧
      (DexcomStreamlitApp.handle_callback
        (DexcomStreamlitApp.handle_callback st ⟨some code, some s⟩ now
          (.ok td)).session
        ⟨some code, some s⟩ now2 net2).session =
        (DexcomStreamlitApp.handle_callback st ⟨some code, some s⟩ now
          (.ok td)).session) ∧
    ((WorkingDexcomApp.handle_callback wst (some wcode)
        (.ok wtd)).exchanged = true ∧
      (WorkingDexcomApp.handle_callback
        (WorkingDexcomApp.handle_callback wst (some wcode) (.ok wtd)).session
        (some wcode) wnet2).exchanged = false ∧
      (WorkingDexcomApp.handle_callback
        (WorkingDexcomApp.handle_callback wst (some wcode) (.ok wtd)).session
        (some wcode) wnet2).session =
        (WorkingDexcomApp.handle_callback wst (some wcode) (.ok wtd)).session) := by
  refine ⟨⟨?_, ?_, ?_⟩, ⟨?_, ?_, ?_⟩⟩ <;>
    simp [DexcomStreamlitApp.handle_callback,
      DexcomStreamlitApp.exchange_code_for_token,
      WorkingDexcomApp.handle_callback,
      WorkingDexcomApp.exchange_code_for_token,
      TokenResponse.truthy, hst, hos, ht, hwst, hwp, hwt]

theorem callback_replay_single_exchange_witness :
    ((DexcomStreamlitApp.handle_callback ⟨none, none, none, some "st8"⟩
        ⟨some "code1", some "st8"⟩ 100
        (.ok ⟨some "tok", some "ref", some 3600⟩)).exchanged = true ∧
      (DexcomStreamlitApp.handle_callback
        (DexcomStreamlitApp.handle_callback ⟨none, none, none, some "st8"⟩
          ⟨some "code1", some "st8"⟩ 100
          (.ok ⟨some "tok", some "ref", some 3600⟩)).session
        ⟨some "code1", some "st8"⟩ 200 HttpResult.timeout).exchanged = false ∧
      (DexcomStreamlitApp.handle_callback
        (DexcomStreamlitApp.handle_callback ⟨none, none, none, some "st8"⟩
          ⟨some "code1", some "st8"⟩ 100
          (.ok ⟨some "tok", some "ref", some 3600⟩)).session
        ⟨some "code1", some "st8"⟩ 200 HttpResult.timeout).session =
        (DexcomStreamlitApp.handle_callback ⟨none, none, none, some "st8"⟩
          ⟨some "code1", some "st8"⟩ 100
          (.ok ⟨some "tok", some "ref", some 3600⟩)).session) ∧
    ((WorkingDexcomApp.handle_callback ⟨none, none, false⟩ (some "code1")
        (.ok ⟨some "tok", some "ref", none⟩)).exchanged = true ∧
      (WorkingDexcomApp.handle_callback
        (WorkingDexcomApp.handle_callback ⟨none, none, false⟩ (some "code1")
          (.ok ⟨some "tok", some "ref", none⟩)).session
        (some "code1") HttpResult.connError).exchanged = false ∧
      (WorkingDexcomApp.handle_callback
        (WorkingDexcomApp.handle_callback ⟨none, none, false⟩ (some "code1")
          (.ok ⟨some "tok", some "ref", none⟩)).session
        (some "code1") HttpResult.connError).session =
        (WorkingDexcomApp.handle_callback ⟨none, none, false⟩ (some "code1")
          (.ok ⟨some "tok", some "ref", none⟩)).session) :=
  callback_replay_single_exchange ⟨none, none, none, some "st8"⟩ "code1" "st8"
    "tok" ⟨some "tok", some "ref", some 3600⟩ 100 200 HttpResult.timeout
    ⟨none, none, false⟩ ⟨some "tok", some "ref", none⟩ "tok" "code1"
    HttpResult.connError rfl rfl rfl rfl rfl rfl

/-- C3 (counterexample): at a concrete authenticated session, a refresh
attempt failing with HTTP 400 (the invalid-refresh-token failure) leaves the
old TokenState fully retained — `access_token`, `refresh_token` and the
expiry survive — instead of ending in Unauthenticated with no TokenState,
refuting the claim. -/
theorem refresh_failure_keeps_stale_token :
    DexcomStreamlitApp.handle_refresh_click
        ⟨some "oldAccess", some "oldRefresh", some 1000, none⟩ 2000
        (HttpResult.httpError 400) =
      ⟨some "oldAccess", some "oldRefresh", some 1000, none⟩ ∧
    (some "oldAccess" : Option String) ≠ none ∧
    (some "oldRefresh" : Option String) ≠ none := by
  refine ⟨?_, by decide, by decide⟩
  rfl

/-- C3 (amended): every failed refresh attempt — any network outcome other
than a 2xx response, including the HTTP 400 that signals an invalid refresh
token — leaves the session state exactly as it was: the stale access token,
refresh token and expiry are silently retained, and the session does not
move to Unauthenticated (`src/dexcom_streamlit_app.py` lines 293-302 have no
failure branch). -/
theorem refresh_failure_retains_token_state
    (st : DexcomStreamlitApp.SessionState) (now : Int) (net : HttpResult)
    (h : ∀ td, net ≠ HttpResult.ok td) :
    DexcomStreamlitApp.handle_refresh_click st now net = st := by
  unfold DexcomStreamlitApp.handle_refresh_click
  cases hrt : st.refresh_token with
  | none => rfl
  | some rt =>
      by_cases he : rt = ""
      · simp [he]
      · cases net with
        | ok td => exact absurd rfl (h td)
        | httpError status =>
            simp [he, DexcomStreamlitApp.refresh_access_token]
        | timeout => simp [he, DexcomStreamlitApp.refresh_access_token]
        | connError => simp [he, DexcomStreamlitApp.refresh_access_token]

theorem refresh_failure_retains_token_state_witness :
    DexcomStreamlitApp.handle_refresh_click
        ⟨some "acc", some "ref", some 50, none⟩ 999 HttpResult.connError =
      ⟨some "acc", some "ref", some 50, none⟩ :=
  refresh_failure_retains_token_state ⟨some "acc", some "ref", some 50, none⟩
    999 HttpResult.connError (fun td h => by cases h)

/-- C4: on every successful exchange (callback handler) and every successful
refresh (refresh-button handler) in `src/dexcom_streamlit_app.py`, the
stored expiry equals the handler's current time plus the response's
`expires_in`, and equals current time plus 7200 seconds when `expires_in` is
absent. -/
theorem token_expiry_formula
    (st : DexcomStreamlitApp.SessionState) (code s : String)
    (td : TokenResponse) (now : Int)
    (st2 : DexcomStreamlitApp.SessionState) (rt : String)
    (hst : st.access_token = none) (hos : st.oauth_state = some s)
    (htruthy : td.truthy = true)
    (hrt : st2.refresh_token = some rt) (hrtne : rt ≠ "") :
    ((DexcomStreamlitApp.handle_callback st ⟨some code, some s⟩ now
        (.ok td)).session.token_expires_at =
      some (now + (td.expires_in.getD 7200 : Nat))) ∧
    (td.expires_in = none →
      (DexcomStreamlitApp.handle_callback st ⟨some code, some s⟩ now
          (.ok td)).session.token_expires_at = some (now + 7200)) ∧
    ((DexcomStreamlitApp.handle_refresh_click st2 now
        (.ok td)).token_expires_at =
      some (now + (td.expires_in.getD 7200 : Nat))) ∧
    (td.expires_in = none →
      (DexcomStreamlitApp.handle_refresh_click st2 now
          (.ok td)).token_expires_at = some (now + 7200)) := by
  refine ⟨?_, fun he => ?_, ?_, fun he => ?_⟩ <;>
    first
    | simp [DexcomStreamlitApp.handle_callback,
        DexcomStreamlitApp.handle_refresh_click,
        DexcomStreamlitApp.exchange_code_for_token,
        DexcomStreamlitApp.refresh_access_token,
        hst, hos, htruthy, hrt, hrtne, he]
    | simp [DexcomStreamlitApp.handle_callback,
        DexcomStreamlitApp.handle_refresh_click,
        DexcomStreamlitApp.exchange_code_for_token,
        DexcomStreamlitApp.refresh_access_token,
        hst, hos, htruthy, hrt, hrtne]

theorem token_expiry_formula_witness :
    ((DexcomStreamlitApp.handle_callback ⟨none, none, none, some "s1"⟩
        ⟨some "c1", some "s1"⟩ 5000
        (.ok ⟨some "a", some "r", none⟩)).session.token_expires_at =
      some (5000 + ((none : Option Nat).getD 7200 : Nat))) ∧
    ((none : Option Nat) = none →
      (DexcomStreamlitApp.handle_callback ⟨none, none, none, some "s1"⟩
          ⟨some "c1", some "s1"⟩ 5000
          (.ok ⟨some "a", some "r", none⟩)).session.token_expires_at =
        some (5000 + 7200)) ∧
    ((DexcomStreamlitApp.handle_refresh_click ⟨some "a0", some "r0", some 9, none⟩
        5000 (.ok ⟨some "a", some "r", none⟩)).token_expires_at =
      some (5000 + ((none : Option Nat).getD 7200 : Nat))) ∧
    ((none : Option Nat) = none →
      (DexcomStreamlitApp.handle_refresh_click ⟨some "a0", some "r0", some 9, none⟩
          5000 (.ok ⟨some "a", some "r", none⟩)).token_expires_at =
        some (5000 + 7200)) :=
  token_expiry_formula ⟨none, none, none, some "s1"⟩ "c1" "s1"
    ⟨some "a", some "r", none⟩ 5000 ⟨some "a0", some "r0", some 9, none⟩ "r0"
    rfl rfl rfl rfl (by decide)

/-- C9 (counterexample): a 2xx token response that lacks `access_token`
(here a non-empty body carrying only `refresh_token` and `expires_in`) is
not surfaced as an error: the callback handler of
`src/dexcom_streamlit_app.py` reports success while storing `None` as the
access token, refuting the claim that a missing expected field is treated as
an `ApiError` and never silently substituted. -/
theorem missing_access_token_counterexample :
    (DexcomStreamlitApp.handle_callback ⟨none, none, none, some "sX"⟩
        ⟨some "cX", some "sX"⟩ 0
        (.ok ⟨none, some "rX", some 100⟩)).success = true ∧
    (DexcomStreamlitApp.handle_callback ⟨none, none, none, some "sX"⟩
        ⟨some "cX", some "sX"⟩ 0
        (.ok ⟨none, some "rX", some 100⟩)).session.access_token = none := by
  constructor <;> rfl

/-- C9 (amended): for every 2xx token response whose JSON body is non-empty
but lacks `access_token`, both scripts' callback handlers report success and
silently store `None` as the access token; the missing field is substituted,
not surfaced as an `ApiError`. -/
theorem missing_access_token_reports_success
    (st : DexcomStreamlitApp.SessionState) (code s : String)
    (td : TokenResponse) (now : Int)
    (wst : WorkingDexcomApp.WState) (wcode : String)
    (hst : st.access_token = none) (hos : st.oauth_state = some s)
    (hmiss : td.access_token = none) (htruthy : td.truthy = true)
    (hwst : wst.access_token = none) (hwp : wst.processing_callback = false) :
    (DexcomStreamlitApp.handle_callback st ⟨some code, some s⟩ now
        (.ok td)).success = true ∧
    (DexcomStreamlitApp.handle_callback st ⟨some code, some s⟩ now
        (.ok td)).session.access_token = none ∧
    (WorkingDexcomApp.handle_callback wst (some wcode)
        (.ok td)).success = true ∧
    (WorkingDexcomApp.handle_callback wst (some wcode)
        (.ok td)).session.access_token = none := by
  refine ⟨?_, ?_, ?_, ?_⟩ <;>
    simp [DexcomStreamlitApp.handle_callback,
      DexcomStreamlitApp.exchange_code_for_token,
      WorkingDexcomApp.handle_callback,
      WorkingDexcomApp.exchange_code_for_token,
      hst, hos, hmiss, htruthy, hwst, hwp]

theorem missing_access_token_reports_success_witness :
    (DexcomStreamlitApp.handle_callback ⟨none, none, none, some "sY"⟩
        ⟨some "cY", some "sY"⟩ 7
        (.ok ⟨none, some "rY", none⟩)).success = true ∧
    (DexcomStreamlitApp.handle_callback ⟨none, none, none, some "sY"⟩
        ⟨some "cY", some "sY"⟩ 7
        (.ok ⟨none, some "rY", none⟩)).session.access_token = none ∧
    (WorkingDexcomApp.handle_callback ⟨none, none, false⟩ (some "cY")
        (.ok ⟨none, some "rY", none⟩)).success = true ∧
    (WorkingDexcomApp.handle_callback ⟨none, none, false⟩ (some "cY")
        (.ok ⟨none, some "rY", none⟩)).session.access_token = none :=
  missing_access_token_reports_success ⟨none, none, none, some "sY"⟩ "cY" "sY"
    ⟨none, some "rY", none⟩ 7 ⟨none, none, false⟩ "cY" rfl rfl rfl rfl rfl rfl

/-- C10: after `src/dexcom_streamlit_app.py` finishes loading, the binding of
`exchange_code_for_token` is the second definition (line 414): Python `def`
rebinds the name, so the last `def` wins.  That definition takes only the
authorization code, performs no state verification, and POSTs the code to
the token endpoint for every input and every network outcome; its result
never carries the security-error rejection, which exists only in the
shadowed first definition. -/
theorem final_exchange_binding_has_no_csrf_check :
    DexcomStreamlitApp.finalBinding DexcomStreamlitApp.exchangeDefs
        "exchange_code_for_token" =
      some DexcomStreamlitApp.ExchangeVersion.v2 ∧
    ∀ (auth_code : String) (net : HttpResult),
      (DexcomStreamlitApp.exchange_code_for_token_v2 auth_code net).securityError
          = false ∧
      (DexcomStreamlitApp.exchange_code_for_token_v2 auth_code net).networkCalled
          = true ∧
      (DexcomStreamlitApp.exchange_code_for_token_v2 auth_code net).payloadCode
          = some auth_code := by
  refine ⟨by decide, fun auth_code net => ?_⟩
  cases net <;> simp [DexcomStreamlitApp.exchange_code_for_token_v2]

/-- C5: for every reading sequence, `time_in_range` equals 100 times the
count of readings with value in the inclusive band [70, 180] divided by the
total count, and on the empty sequence the count is 0 and the percentage is
0, with no division performed (the `len(df) > 0` guard at
`src/dexcom_streamlit_app.py` line 194 selects the constant 0). -/
theorem summarize_percent_in_range (values : List Int) :
    time_in_range values =
      (if values.length = 0 then 0
       else 100 * (in_range_count values : ℚ) / (values.length : ℚ)) ∧
    time_in_range [] = 0 ∧ in_range_count [] = 0 := by
  refine ⟨?_, rfl, rfl⟩
  unfold time_in_range
  rcases Nat.eq_zero_or_pos values.length with h | h
  · simp [h]
  · rw [if_pos h, if_neg (Nat.pos_iff_ne_zero.mp h)]
    ring

/-- C6: the marker-colouring of readings is a pure three-way classification
with no overlap and no gaps — red (low) exactly when value < 70, green
(in-range) exactly when 70 ≤ value ≤ 180, orange (high) exactly when
value > 180, every value falling in exactly one class — and the concrete
readings [60, 100, 190] classify as [low, in-range, high] with a
time-in-range percentage displaying as 33.3 at one decimal. -/
theorem classification_three_way :
    (∀ v : Int,
      (color v = "red" ↔ v < 70) ∧
      (color v = "green" ↔ 70 ≤ v ∧ v ≤ 180) ∧
      (color v = "orange" ↔ 180 < v) ∧
      (color v = "red" ∨ color v = "green" ∨ color v = "orange")) ∧
    [(60 : Int), 100, 190].map color = ["red", "green", "orange"] ∧
    round1 (time_in_range [60, 100, 190]) = 333 / 10 := by
  refine ⟨fun v => ?_, by rfl, ?_⟩
  · unfold color
    split_ifs with h1 h2 <;> simp_all <;> omega
  · norm_num [time_in_range, in_range_count, round1, round_eq]

theorem tsLE_trans (a b c : Reading) : tsLE a b → tsLE b c → tsLE a c := by
  simp only [tsLE, decide_eq_true_eq]
  omega

theorem tsLE_total (a b : Reading) : tsLE a b || tsLE b a := by
  simp only [tsLE]
  by_cases h : a.displayTime ≤ b.displayTime <;> simp [h] <;> omega

/-- Readings carrying one fixed timestamp appear in `toChartSeries` exactly
as they appear in the input, in the same relative order: the sort is stable
on equal timestamps. -/
theorem filter_toChartSeries (l : List Reading) (t : Int) :
    (toChartSeries l).filter (fun r => r.displayTime = t) =
      l.filter (fun r => r.displayTime = t) := by
  set p : Reading → Bool := fun r => r.displayTime = t with hp
  have hmem : ∀ a ∈ l.filter p, p a = true := fun a ha => (List.mem_filter.mp ha).2
  have hpw : (l.filter p).Pairwise (fun a b => tsLE a b) := by
    refine List.pairwise_of_forall_mem_list (fun a ha b hb => ?_)
    have ha' := hmem a ha
    have hb' := hmem b hb
    simp only [hp, decide_eq_true_eq] at ha' hb'
    simp [tsLE, ha', hb']
  have hsub : List.Sublist (l.filter p) (toChartSeries l) :=
    List.sublist_mergeSort tsLE_trans tsLE_total hpw (List.filter_sublist l)
  have hsub2 : List.Sublist (l.filter p) ((toChartSeries l).filter p) := by
    have := hsub.filter p
    rwa [List.filter_eq_self.mpr hmem] at this
  have hlen : ((toChartSeries l).filter p).length = (l.filter p).length :=
    ((List.mergeSort_perm l tsLE).filter p).length_eq
  exact (hsub2.eq_of_length hlen.symm).symm

/-- C7: for any input permutation of the same reading set, `toChartSeries`
outputs the readings sorted non-decreasing by timestamp and is a
rearrangement of exactly that set, and the sort is stable: the readings
carrying any fixed timestamp keep their original relative order from the
input. -/
theorem chart_series_sorted_and_stable
    (l l' : List Reading) (t : Int) (h : l.Perm l') :
    (toChartSeries l').Pairwise
      (fun a b => a.displayTime ≤ b.displayTime) ∧
    (toChartSeries l').Perm l ∧
    (toChartSeries l').filter (fun r => r.displayTime = t) =
      l'.filter (fun r => r.displayTime = t) := by
  refine ⟨?_, ?_, filter_toChartSeries l' t⟩
  · have hs := List.sorted_mergeSort tsLE_trans tsLE_total l'
    exact hs.imp (fun hab => by simpa [tsLE] using hab)
  · exact (List.mergeSort_perm l' tsLE).trans h.symm

theorem chart_series_sorted_and_stable_witness :
    (toChartSeries [⟨5, 21⟩, ⟨3, 11⟩, ⟨5, 22⟩, ⟨3, 12⟩]).Pairwise
      (fun a b => a.displayTime ≤ b.displayTime) ∧
    (toChartSeries [⟨5, 21⟩, ⟨3, 11⟩, ⟨5, 22⟩, ⟨3, 12⟩]).Perm
      [⟨3, 11⟩, ⟨3, 12⟩, ⟨5, 21⟩, ⟨5, 22⟩] ∧
    (toChartSeries [⟨5, 21⟩, ⟨3, 11⟩, ⟨5, 22⟩, ⟨3, 12⟩]).filter
        (fun r => r.displayTime = 5) =
      [⟨5, 21⟩, ⟨3, 11⟩, ⟨5, 22⟩, ⟨3, 12⟩].filter
        (fun r => r.displayTime = 5) :=
  chart_series_sorted_and_stable [⟨3, 11⟩, ⟨3, 12⟩, ⟨5, 21⟩, ⟨5, 22⟩]
    [⟨5, 21⟩, ⟨3, 11⟩, ⟨5, 22⟩, ⟨3, 12⟩] 5 (by decide)

/-- Decimal digit characters of `n`, most significant first; reference form
of core's fuelled `Nat.toDigitsCore` used by `Nat.repr`. -/
def natChars (n : Nat) : List Char :=
  if n < 10 then [Nat.digitChar n]
  else natChars (n / 10) ++ [Nat.digitChar (n % 10)]
decreasing_by
  exact Nat.div_lt_self (by omega) (by omega)

theorem digitChar_isDigit (m : Nat) (h : m < 10) :
    (Nat.digitChar m).isDigit = true := by
  interval_cases m <;> decide

theorem digitVal_digitChar (m : Nat) (h : m < 10) :
    digitVal (Nat.digitChar m) = m := by
  interval_cases m <;> decide

theorem natChars_ne_nil (n : Nat) : natChars n ≠ [] := by
  rw [natChars]
  split <;> simp

theorem natChars_all_digits (n : Nat) :
    ∀ c ∈ natChars n, c.isDigit = true := by
  induction n using Nat.strong_induction_on with
  | _ n ih =>
    rw [natChars]
    split
    · next h =>
        intro c hc
        simp only [List.mem_singleton] at hc
        subst hc
        exact digitChar_isDigit n h
    · next h =>
        intro c hc
        rcases List.mem_append.mp hc with hl | hr
        · exact ih (n / 10) (Nat.div_lt_self (by omega) (by omega)) c hl
        · simp only [List.mem_singleton] at hr
          subst hr
          exact digitChar_isDigit _ (Nat.mod_lt _ (by omega))

theorem toDigitsCore_eq_natChars :
    ∀ (fuel n : Nat) (ds : List Char), n < fuel →
      Nat.toDigitsCore 10 fuel n ds = natChars n ++ ds := by
  intro fuel
  induction fuel with
  | zero => intro n ds h; omega
  | succ fuel ih =>
      intro n ds h
      rw [Nat.toDigitsCore]
      by_cases h10 : n / 10 = 0
      · have hn : n < 10 := by omega
        simp only [h10, if_pos rfl]
        rw [natChars, if_pos hn, Nat.mod_eq_of_lt hn]
        rfl
      · have hlt : n / 10 < fuel := by omega
        simp only [if_neg h10]
        rw [ih (n / 10) _ hlt]
        conv_rhs => rw [natChars, if_neg (show ¬ n < 10 by omega)]
        simp

theorem repr_data_eq_natChars (n : Nat) : (Nat.repr n).data = natChars n := by
  show (Nat.toDigits 10 n).asString.data = natChars n
  rw [Nat.toDigits, toDigitsCore_eq_natChars (n + 1) n [] (Nat.lt_succ_self n)]
  simp [List.asString]

theorem foldl_digitVal_natChars (n : Nat) :
    ∀ acc : Nat,
      (natChars n).foldl (fun a c => a * 10 + digitVal c) acc =
        acc * 10 ^ (natChars n).length + n := by
  induction n using Nat.strong_induction_on with
  | _ n ih =>
    intro acc
    rw [natChars]
    by_cases h : n < 10
    · simp [h, List.foldl, digitVal_digitChar n h]
    · rw [if_neg h, List.foldl_append]
      rw [ih (n / 10) (Nat.div_lt_self (by omega) (by omega)) acc]
      simp only [List.foldl_cons, List.foldl_nil, List.length_append,
        List.length_singleton]
      rw [digitVal_digitChar _ (Nat.mod_lt _ (by omega))]
      rw [pow_succ]
      have hdm : n / 10 * 10 + n % 10 = n := by omega
      ring_nf
      omega

theorem parseNat_natChars (n : Nat) : parseNat (natChars n) = some n := by
  unfold parseNat
  rw [if_pos ⟨natChars_ne_nil n, by
    rw [List.all_eq_true]
    intro c hc
    exact natChars_all_digits n c hc⟩]
  rw [foldl_digitVal_natChars n 0]
  simp

theorem isDigit_ne_special (c : Char) (h : c.isDigit = true) :
    c ≠ '-' ∧ c ≠ ',' ∧ c ≠ '\n' := by
  refine ⟨?_, ?_, ?_⟩ <;> (intro he; subst he; exact absurd h (by decide))

theorem parseInt_toString (v : Int) : parseInt ((toString v).data) = some v := by
  cases v with
  | ofNat m =>
      have hds : (toString (Int.ofNat m)).data = natChars m := by
        show (Nat.repr m).data = natChars m
        exact repr_data_eq_natChars m
      rw [hds]
      rcases hnc : natChars m with _ | ⟨c, rest⟩
      · exact absurd hnc (natChars_ne_nil m)
      · have hc : c.isDigit = true := by
          refine natChars_all_digits m c ?_
          rw [hnc]; exact List.mem_cons_self c rest
        have hcd : c ≠ '-' := (isDigit_ne_special c hc).1
        simp only [parseInt]
        rw [if_neg hcd, ← hnc, parseNat_natChars m]
        rfl
  | negSucc m =>
      have hds : (toString (Int.negSucc m)).data = '-' :: natChars (m + 1) := by
        show ("-" ++ Nat.repr (m + 1)).data = '-' :: natChars (m + 1)
        rw [String.data_append, repr_data_eq_natChars]
        rfl
      rw [hds]
      simp only [parseInt, if_true]
      rw [parseNat_natChars (m + 1)]
      simp [Int.negSucc_eq]

theorem toString_ofNat_data (m : Nat) :
    (toString (Int.ofNat m)).data = natChars m :=
  repr_data_eq_natChars m

theorem toString_negSucc_data (m : Nat) :
    (toString (Int.negSucc m)).data = '-' :: natChars (m + 1) := by
  show ("-" ++ Nat.repr (m + 1)).data = '-' :: natChars (m + 1)
  rw [String.data_append, repr_data_eq_natChars]
  rfl

theorem toString_int_chars (v : Int) :
    ∀ c ∈ (toString v).data, c ≠ ',' ∧ c ≠ '\n' := by
  cases v with
  | ofNat m =>
      rw [toString_ofNat_data]
      intro c hc
      have hd := natChars_all_digits m c hc
      exact ⟨(isDigit_ne_special c hd).2.1, (isDigit_ne_special c hd).2.2⟩
  | negSucc m =>
      rw [toString_negSucc_data]
      intro c hc
      rcases List.mem_cons.mp hc with rfl | hc2
      · exact ⟨by decide, by decide⟩
      · have hd := natChars_all_digits (m + 1) c hc2
        exact ⟨(isDigit_ne_special c hd).2.1, (isDigit_ne_special c hd).2.2⟩

theorem splitOnChar_not_mem (sep : Char) :
    ∀ xs : List Char, (∀ c ∈ xs, c ≠ sep) → splitOnChar sep xs = [xs] := by
  intro xs
  induction xs with
  | nil => intro h; rfl
  | cons c cs ih =>
      intro h
      have hc : c ≠ sep := h c (List.mem_cons_self c cs)
      have hrest : splitOnChar sep cs = [cs] :=
        ih (fun d hd => h d (List.mem_cons_of_mem c hd))
      simp only [splitOnChar, hrest, if_neg hc]

theorem splitOnChar_append (sep : Char) :
    ∀ xs ys : List Char, (∀ c ∈ xs, c ≠ sep) →
      splitOnChar sep (xs ++ sep :: ys) = xs :: splitOnChar sep ys := by
  intro xs
  induction xs with
  | nil =>
      intro ys h
      simp only [List.nil_append, splitOnChar, eq_self_iff_true, if_true]
  | cons c cs ih =>
      intro ys h
      have hc : c ≠ sep := h c (List.mem_cons_self c cs)
      have hrest := ih ys (fun d hd => h d (List.mem_cons_of_mem c hd))
      simp only [List.cons_append, splitOnChar, List.append_eq, hrest,
        if_neg hc]

theorem parseRow_wellformed (ts : String) (v : Int)
    (h : ∀ c ∈ ts.data, c ≠ ',' ∧ c ≠ '\n') :
    parseRow (ts.data ++ ',' :: (toString v).data) = some (ts, v) := by
  unfold parseRow
  rw [splitOnChar_append ',' ts.data (toString v).data (fun c hc => (h c hc).1)]
  rw [splitOnChar_not_mem ',' (toString v).data
    (fun c hc => (toString_int_chars v c hc).1)]
  show (parseInt (toString v).data).map (fun n => (String.mk ts.data, n)) =
    some (ts, v)
  rw [parseInt_toString v]
  rfl

theorem parse_rows (rows : List CsvReading)
    (h : ∀ r ∈ rows, ∀ c ∈ r.displayTime.data, c ≠ ',' ∧ c ≠ '\n') :
    (splitOnChar '\n'
        (rows.flatMap (fun r =>
          r.displayTime.data ++ ',' :: (toString r.value).data ++
            ['\n']))).filterMap parseRow =
      rows.map (fun r => (r.displayTime, r.value)) := by
  induction rows with
  | nil => rfl
  | cons r rs ih =>
      have hr := h r (List.mem_cons_self r rs)
      have hrs : ∀ r2 ∈ rs, ∀ c ∈ r2.displayTime.data, c ≠ ',' ∧ c ≠ '\n' :=
        fun r2 hr2 => h r2 (List.mem_cons_of_mem r hr2)
      have hnosep : ∀ c ∈ r.displayTime.data ++ ',' :: (toString r.value).data,
          c ≠ '\n' := by
        intro c hc
        rcases List.mem_append.mp hc with h1 | h2
        · exact (hr c h1).2
        · rcases List.mem_cons.mp h2 with rfl | h3
          · decide
          · exact (toString_int_chars r.value c h3).2
      rw [List.flatMap_cons]
      have hshape :
          (r.displayTime.data ++ ',' :: (toString r.value).data ++ ['\n']) ++
              rs.flatMap (fun r2 =>
                r2.displayTime.data ++ ',' :: (toString r2.value).data ++
                  ['\n']) =
            (r.displayTime.data ++ ',' :: (toString r.value).data) ++ '\n' ::
              rs.flatMap (fun r2 =>
                r2.displayTime.data ++ ',' :: (toString r2.value).data ++
                  ['\n']) := by
        simp [List.append_assoc]
      rw [hshape, splitOnChar_append '\n' _ _ hnosep]
      rw [List.filterMap_cons, parseRow_wellformed r.displayTime r.value hr]
      rw [ih hrs, List.map_cons]

/-- C8: exporting any reading sequence to CSV — one `timestamp,value` row
per reading after a header line, as `df.to_csv(index=False)` renders it —
and re-parsing the CSV reproduces the identical `(timestamp, value)` pairs
in the same order.  The hypothesis states the fidelity condition of the
unquoted CSV model: no timestamp contains a comma, quote, CR or LF (such a
field would be quoted by the CSV writer; real timestamp renderings never
contain them, and integer values never need quoting). -/
theorem csv_round_trip (rows : List CsvReading)
    (h : ∀ r ∈ rows, ∀ c ∈ r.displayTime.data,
      c ≠ ',' ∧ c ≠ '\n' ∧ c ≠ '"' ∧ c ≠ '\r') :
    parse_csv (to_csv rows) = rows.map (fun r => (r.displayTime, r.value)) := by
  unfold parse_csv to_csv
  have hheader : ∀ c ∈ "displayTime,value".data, c ≠ '\n' := by decide
  rw [splitOnChar_append '\n' _ _ hheader]
  rw [List.drop_succ_cons, List.drop_zero]
  exact parse_rows rows
    (fun r hr c hc => ⟨(h r hr c hc).1, (h r hr c hc).2.1⟩)

theorem csv_round_trip_witness :
    parse_csv (to_csv [⟨"2023-01-01 12:00:00", 95⟩,
        ⟨"2023-01-01 12:05:00", 187⟩]) =
      [("2023-01-01 12:00:00", 95), ("2023-01-01 12:05:00", 187)] :=
  csv_round_trip
    [⟨"2023-01-01 12:00:00", 95⟩, ⟨"2023-01-01 12:05:00", 187⟩]
    (by decide)
